import Mathlib

/-
Verification of the session-processing orchestrator of the claude-mem worker
(src/services/worker-service.ts, src/services/worker/CodexAgent.ts,
src/shared/SettingsDefaultsManager.ts), as a shallow embedding in Lean 4.

Strings are modelled by Lean String; JavaScript substring tests
(String.prototype.includes) are modelled over the character lists of the
strings; epoch-millisecond timestamps are modelled by Int (JS Date.now()).
-/

namespace OpenMem

/-! ## String helpers (JavaScript includes / toLowerCase) -/

/-- Containment of one character list inside another, as a Bool. -/
def charInfix : List Char → List Char → Bool
  | pat, [] => pat.isEmpty
  | pat, c :: rest => pat.isPrefixOf (c :: rest) || charInfix pat rest

/-- Model of JavaScript s.includes(pat). -/
def strIncludes (s pat : String) : Bool := charInfix pat.toList s.toList

/-- Model of JavaScript s.toLowerCase() (character-wise lowering). -/
def strToLower (s : String) : List Char := s.toList.map Char.toLower

/-- Model of JavaScript s.toLowerCase().includes(pat) for a lowercase pattern. -/
def lowerIncludes (s pat : String) : Bool := charInfix pat.toList (strToLower s)

/-! ## Error classification (worker-service.ts, startSessionProcessor and
isSessionTerminatedError) -/

/-- Patterns of unrecoverable generator errors (worker-service.ts lines 463-468). -/
def unrecoverablePatterns : List String :=
  ["Claude executable not found", "CLAUDE_CODE_PATH", "ENOENT", "spawn"]

/-- Detection of fatal-configuration (unrecoverable) errors: the catch handler of
startSessionProcessor checks whether the error message includes one of the
unrecoverable patterns (worker-service.ts line 469). -/
def isUnrecoverableGeneratorError (errorMessage : String) : Bool :=
  unrecoverablePatterns.any fun pattern => strIncludes errorMessage pattern

/-- WorkerService.isSessionTerminatedError (worker-service.ts lines 545-555):
matches errors telling that the Claude Code process/session is gone, on the
lowercased message. -/
def isSessionTerminatedError (msg : String) : Bool :=
  lowerIncludes msg "process aborted by user" ||
  lowerIncludes msg "processtransport" ||
  lowerIncludes msg "not ready for writing" ||
  lowerIncludes msg "session generator failed" ||
  lowerIncludes msg "claude code process"

/-- Stale-resume detection in the catch handler (worker-service.ts line 490):
errorMessage.includes('aborted by user') || errorMessage.includes('No conversation found'). -/
def isStaleResumeFailure (errorMessage : String) : Bool :=
  strIncludes errorMessage "aborted by user" || strIncludes errorMessage "No conversation found"

/-- Model of a JavaScript Error value (name and message). -/
structure JsError where
  name : String
  message : String
deriving Repr, DecidableEq

/-- Modelled from the spec: isAbortError is defined in
src/services/worker/agents/index.ts, which is not among the sources. The spec
classifies cancellation as cooperative abort errors raised when the session's
cancellation token fires; such errors conventionally carry the name AbortError. -/
def isAbortError (e : JsError) : Bool := e.name == "AbortError"

/-! ## Session state (in-memory ActiveSession of the registry) -/

/-- In-memory session context, restricted to the fields the orchestrator
mutates in the code under study. The AbortController of the session is
modelled by a generation counter (controllerGen, bumped whenever the code
executes new AbortController()) plus its aborted flag. -/
structure ActiveSession where
  sessionDbId : Nat
  contentSessionId : String
  memorySessionId : Option String
  forceInit : Bool
  controllerGen : Nat
  controllerAborted : Bool
deriving Repr, DecidableEq

/-! ## The catch handler of startSessionProcessor (worker-service.ts 458-508) -/

/-- Disposition of the catch handler attached to agent.startSession. -/
inductive CatchOutcome
  | swallowUnrecoverable
  | runFallback
  | rethrow
deriving Repr, DecidableEq

/-- Control-flow of the catch handler of startSessionProcessor
(worker-service.ts lines 458-508): unrecoverable errors are swallowed after
setting the no-restart flag; session-terminated errors divert into
runFallbackForTerminatedSession; every other error is rethrown (the
stale-resume branch falls through to the rethrow at line 507). -/
def catchHandler (errorMessage : String) : CatchOutcome :=
  if isUnrecoverableGeneratorError errorMessage then CatchOutcome.swallowUnrecoverable
  else if isSessionTerminatedError errorMessage then CatchOutcome.runFallback
  else CatchOutcome.rethrow

/-- Effect of the catch handler on the session record: the stale-resume branch
(worker-service.ts lines 490-501) clears a non-null memorySessionId back to
null and sets forceInit; no other branch of the handler touches those fields. -/
def catchHandlerSession (errorMessage : String) (session : ActiveSession) : ActiveSession :=
  if isUnrecoverableGeneratorError errorMessage then session
  else if isSessionTerminatedError errorMessage then session
  else if isStaleResumeFailure errorMessage && session.memorySessionId.isSome then
    { session with memorySessionId := none, forceInit := true }
  else session

/-! ## The finally block of startSessionProcessor (worker-service.ts 509-538) -/

/-- Outcome of the finally block: whether the processor was restarted and
whether a fresh AbortController was allocated for that restart. -/
structure FinallyOutcome where
  restarted : Bool
  controllerReplaced : Bool
deriving Repr, DecidableEq

/-- The finally block of startSessionProcessor (worker-service.ts lines
509-538): if hadUnrecoverableError is set, only broadcast and return (no
restart); otherwise, read pendingCount and when it is positive allocate a
fresh AbortController and restart the processor. -/
def finallyBlock (hadUnrecoverableError : Bool) (pendingCount : Nat) : FinallyOutcome :=
  if hadUnrecoverableError then ⟨false, false⟩
  else if 0 < pendingCount then ⟨true, true⟩
  else ⟨false, false⟩

/-- Value of the hadUnrecoverableError flag when the generator terminates:
none models a normal return, some msg a failure with message msg. The flag is
set only in the unrecoverable branch of the catch handler. -/
def generatorHadUnrecoverableError : Option String → Bool
  | none => false
  | some msg => isUnrecoverableGeneratorError msg

/-- Combined termination handling of one processor generation: the generator
exits with the given outcome, the finally block then decides the restart. -/
def processorFinally (outcome : Option String) (pendingCount : Nat) : FinallyOutcome :=
  finallyBlock (generatorHadUnrecoverableError outcome) pendingCount

/-- Entry guard of startSessionProcessor (worker-service.ts lines 445-450): an
already-aborted AbortController is replaced by a fresh one before the
generator starts. -/
def abortControllerGuard (session : ActiveSession) : ActiveSession :=
  if session.controllerAborted then
    { session with controllerGen := session.controllerGen + 1, controllerAborted := false }
  else session

/-- One restart decision applied to the session: when the finally block
restarts, the session receives a fresh AbortController (worker-service.ts line
532) and the processor is started again; none models no restart. -/
def restartStep (session : ActiveSession) (outcome : Option String) (pendingCount : Nat) :
    Option ActiveSession :=
  if (processorFinally outcome pendingCount).restarted then
    some { session with controllerGen := session.controllerGen + 1, controllerAborted := false }
  else none

/-- Iterated self-restart: each list entry is the (outcome, pendingCount) pair
observed at one generator exit; the result counts how many consecutive
restarts the finally block performs and returns the final session state.
There is no processor-level retry counter in the code, so the recursion is
driven only by the outcomes themselves. -/
def restartChain (session : ActiveSession) :
    List (Option String × Nat) → Nat × ActiveSession
  | [] => (0, session)
  | (outcome, pendingCount) :: rest =>
    match restartStep session outcome pendingCount with
    | some next =>
      let r := restartChain next rest
      (r.fst + 1, r.snd)
    | none => (0, session)

/-! ## Fallback for terminated sessions (worker-service.ts 561-611) -/

/-- Environment of runFallbackForTerminatedSession: availability of the two
fallback agents (isGeminiAvailable / isOpenRouterAvailable, defined outside
the studied sources and treated as oracles) and whether each agent's
startSession call succeeds when invoked. -/
structure FallbackEnv where
  geminiAvailable : Bool
  geminiSucceeds : Bool
  openRouterAvailable : Bool
  openRouterSucceeds : Bool
deriving Repr, DecidableEq

/-- Observable actions of runFallbackForTerminatedSession, in order. -/
inductive FallbackEvent
  | mintSyntheticMemoryId
  | tryGemini
  | tryOpenRouter
  | markAllAbandoned
  | removeSession
  | broadcastSessionCompleted
deriving Repr, DecidableEq

/-- WorkerService.runFallbackForTerminatedSession (worker-service.ts lines
561-611): mint a synthetic memorySessionId when none is set; try Gemini when
available and return on success; then try OpenRouter when available and
return on success; otherwise mark all remaining messages abandoned, remove
the session from the registry and broadcast completion. -/
def runFallbackForTerminatedSession (env : FallbackEnv) (memorySessionId : Option String) :
    List FallbackEvent :=
  let mintEvents := if memorySessionId.isNone then [FallbackEvent.mintSyntheticMemoryId] else []
  let geminiEvents := if env.geminiAvailable then [FallbackEvent.tryGemini] else []
  if env.geminiAvailable && env.geminiSucceeds then
    mintEvents ++ geminiEvents
  else
    let openRouterEvents := if env.openRouterAvailable then [FallbackEvent.tryOpenRouter] else []
    if env.openRouterAvailable && env.openRouterSucceeds then
      mintEvents ++ geminiEvents ++ openRouterEvents
    else
      mintEvents ++ geminiEvents ++ openRouterEvents ++
        [FallbackEvent.markAllAbandoned, FallbackEvent.removeSession,
         FallbackEvent.broadcastSessionCompleted]

/-- True when some fallback agent was available and its startSession call
succeeded, so runFallbackForTerminatedSession returns before abandonment. -/
def fallbackSucceeded (env : FallbackEnv) : Bool :=
  (env.geminiAvailable && env.geminiSucceeds) ||
  (env.openRouterAvailable && env.openRouterSucceeds)

/-- Synthetic memorySessionId minted by the fallback path (worker-service.ts
line 571). -/
def fallbackSyntheticMemorySessionId (sessionDbId : Nat) (nowMs : Nat) : String :=
  "fallback-" ++ toString sessionDbId ++ "-" ++ toString nowMs

/-- Effect of the fallback mint (worker-service.ts lines 570-574) on the
session: a synthetic id is assigned only when memorySessionId is null. -/
def fallbackMintSession (nowMs : Nat) (session : ActiveSession) : ActiveSession :=
  if session.memorySessionId.isNone then
    { session with
        memorySessionId := some (fallbackSyntheticMemorySessionId session.sessionDbId nowMs) }
  else session

/-! ## Pending message and session rows (sqlite tables) -/

/-- Status of a pending_messages row. -/
inductive MsgStatus
  | pending
  | processing
  | processed
  | failed
  | abandoned
deriving Repr, DecidableEq

/-- One pending_messages row, restricted to the columns the studied code
touches. -/
structure PendingMessage where
  id : Nat
  session_db_id : Nat
  status : MsgStatus
  started_at_epoch : Option Int
  failed_at_epoch : Option Int
deriving Repr, DecidableEq

/-- Status of an sdk_sessions row. -/
inductive SessionStatus
  | active
  | completed
  | failed
deriving Repr, DecidableEq

/-- One sdk_sessions row, restricted to the columns the studied code touches. -/
structure SdkSessionRow where
  id : Nat
  status : SessionStatus
  started_at_epoch : Int
  completed_at_epoch : Option Int
deriving Repr, DecidableEq

/-- Modelled from the spec: resetStaleProcessing(olderThanMs) of the Pending
Message Store (PendingMessageStore.ts is not among the sources; worker-service.ts
line 335 calls it with threshold 0 and the comment 0 = reset ALL processing).
Per the spec it bulk-transitions processing back to pending for messages whose
start timestamp is older than the threshold, 0 meaning all of them. -/
def resetStaleProcessingMessages (olderThanMs now : Int) (msgs : List PendingMessage) :
    List PendingMessage :=
  msgs.map fun m =>
    if m.status = MsgStatus.processing ∧
        (olderThanMs = 0 ∨ m.started_at_epoch.getD (now - olderThanMs - 1) < now - olderThanMs)
    then { m with status := MsgStatus.pending }
    else m

/-! ## Background initialization sequence (worker-service.ts 316-402) -/

/-- Steps of WorkerService.initializeBackground, in program order. -/
inductive InitStep
  | cleanupOrphanedProcesses
  | loadMode
  | dbInitialize
  | resetStaleProcessing (olderThanMs : Int)
  | registerSearchRoutes
  | connectMcp
  | markInitializationComplete
  | startOrphanReaper
  | processPendingQueues (sessionLimit : Nat)
deriving Repr, DecidableEq

/-- Program order of initializeBackground (worker-service.ts lines 316-402):
orphan cleanup, mode load, database initialization, the stale-processing reset
with threshold 0, search-route registration, MCP connection, the
initialization-complete flag (which ungates the /api routes that can start
processors), the orphan reaper, and finally processPendingQueues(50), the only
startup path that starts session processors. -/
def initializeBackgroundSteps : List InitStep :=
  [InitStep.cleanupOrphanedProcesses, InitStep.loadMode, InitStep.dbInitialize,
   InitStep.resetStaleProcessing 0, InitStep.registerSearchRoutes, InitStep.connectMcp,
   InitStep.markInitializationComplete, InitStep.startOrphanReaper,
   InitStep.processPendingQueues 50]

/-! ## Stale-session cleanup of processPendingQueues (worker-service.ts 626-659) -/

/-- Staleness threshold for active sessions (worker-service.ts line 628):
6 hours in milliseconds. -/
def STALE_SESSION_THRESHOLD_MS : Int := 6 * 60 * 60 * 1000

/-- Ids selected by the first statement of the cleanup (worker-service.ts lines
632-635): sessions with status active whose started_at_epoch is older than
now minus the staleness threshold. -/
def staleSessionIds (now : Int) (sessions : List SdkSessionRow) : List Nat :=
  ((sessions.filter fun s =>
      s.status = SessionStatus.active ∧
      s.started_at_epoch < now - STALE_SESSION_THRESHOLD_MS).map fun s => s.id)

/-- Update statement on sdk_sessions (worker-service.ts lines 641-645): every
selected session becomes failed with completed_at_epoch set to now. -/
def failStaleSessions (now : Int) (sessions : List SdkSessionRow) : List SdkSessionRow :=
  let ids := staleSessionIds now sessions
  sessions.map fun s =>
    if s.id ∈ ids then { s with status := SessionStatus.failed, completed_at_epoch := some now }
    else s

/-- Update statement on pending_messages (worker-service.ts lines 649-654):
every still-pending message of a selected session becomes failed with
failed_at_epoch set to now. -/
def failStaleSessionMessages (now : Int) (ids : List Nat) (msgs : List PendingMessage) :
    List PendingMessage :=
  msgs.map fun m =>
    if m.status = MsgStatus.pending ∧ m.session_db_id ∈ ids then
      { m with status := MsgStatus.failed, failed_at_epoch := some now }
    else m

/-- The stale-session cleanup pass at the head of processPendingQueues
(worker-service.ts lines 626-659). -/
def cleanupStaleSessions (now : Int) (sessions : List SdkSessionRow)
    (msgs : List PendingMessage) : List SdkSessionRow × List PendingMessage :=
  (failStaleSessions now sessions,
   failStaleSessionMessages now (staleSessionIds now sessions) msgs)

/-! ## CodexAgent (CodexAgent.ts) -/

/-- Synthetic memorySessionId minted by CodexAgent.startSession
(CodexAgent.ts line 60). -/
def codexSyntheticMemorySessionId (contentSessionId : String) (nowMs : Nat) : String :=
  "codex-" ++ contentSessionId ++ "-" ++ toString nowMs

/-- Effect of the CodexAgent mint (CodexAgent.ts lines 59-64) on the session:
a synthetic id is assigned only when memorySessionId is null. -/
def codexMintSession (nowMs : Nat) (session : ActiveSession) : ActiveSession :=
  if session.memorySessionId.isNone then
    { session with
        memorySessionId :=
          some (codexSyntheticMemorySessionId session.contentSessionId nowMs) }
  else session

/-- Kind of a queued message consumed by the agent loop. -/
inductive QueuedMessageType
  | observation
  | summarize
deriving Repr, DecidableEq

/-- One queued message together with the model response the Codex CLI returns
for it (the response acts as an oracle for the external call). -/
structure QueuedMessage where
  type : QueuedMessageType
  response : String
deriving Repr, DecidableEq

/-- Observable actions of CodexAgent.startSession, in order. processResponse
stands for the processAgentResponse call, which inserts the Observation or
Summary records derived from a response and marks the message processed. -/
inductive AgentEvent
  | mintMemorySessionId (id : String)
  | persistMemorySessionId (id : String)
  | queryCodex
  | processResponse
deriving Repr, DecidableEq

/-- Event trace of CodexAgent.startSession (CodexAgent.ts lines 54-193): when
the session lacks a memorySessionId, a synthetic one is minted and persisted
first (lines 59-64); then the init/continuation prompt is sent (line 73) and
its response processed when non-empty (lines 75-91); then each queued message
is sent and its response processed (lines 100-185). After the initial mint the
id is always present, so the defensive throws inside the loop never fire. -/
def codexStartSessionEvents (memorySessionId : Option String) (contentSessionId : String)
    (nowMs : Nat) (initResponse : String) (msgs : List QueuedMessage) : List AgentEvent :=
  (match memorySessionId with
   | none =>
     [AgentEvent.mintMemorySessionId (codexSyntheticMemorySessionId contentSessionId nowMs),
      AgentEvent.persistMemorySessionId (codexSyntheticMemorySessionId contentSessionId nowMs)]
   | some _ => []) ++
  [AgentEvent.queryCodex] ++
  (if initResponse = "" then [] else [AgentEvent.processResponse]) ++
  msgs.flatMap (fun _ => [AgentEvent.queryCodex, AgentEvent.processResponse])

/-! ## History truncation (CodexAgent.ts 213-253) -/

/-- CodexAgent.estimateTokens (CodexAgent.ts lines 213-215):
Math.ceil(text.length / 4). -/
def estimateTokens (text : String) : Nat := (text.length + 3) / 4

/-- One conversation history entry. -/
structure ConversationMessage where
  role : String
  content : String
deriving Repr, DecidableEq

/-- Token estimate of a whole history (CodexAgent.ts line 224,
history.reduce((sum, m) => sum + estimateTokens(m.content), 0)). -/
def historyTokenSum (history : List ConversationMessage) : Nat :=
  history.foldl (fun sum m => sum + estimateTokens m.content) 0

/-- Default for CLAUDE_MEM_CODEX_MAX_CONTEXT_MESSAGES (CodexAgent.ts line 29). -/
def DEFAULT_MAX_CONTEXT_MESSAGES : Nat := 20

/-- Default for CLAUDE_MEM_CODEX_MAX_TOKENS (CodexAgent.ts line 30). -/
def DEFAULT_MAX_ESTIMATED_TOKENS : Nat := 100000

/-- Resolution of a limit setting (CodexAgent.ts lines 220-221):
parseInt(setting) || default, so an unparsable setting (none) and an explicit
0 both fall back to the default. -/
def resolveLimitSetting (parsed : Option Nat) (defaultValue : Nat) : Nat :=
  match parsed with
  | none => defaultValue
  | some 0 => defaultValue
  | some n => n

/-- The backwards for-loop of truncateHistory (CodexAgent.ts lines 233-250):
rev holds the not-yet-visited messages most recent first, truncated the kept
suffix, tokenCount its token estimate. Before keeping a message the loop
breaks when the kept count has reached maxMessages or the message would push
the estimate over maxTokens. -/
def truncateLoop (maxMessages maxTokens : Nat) :
    List ConversationMessage → List ConversationMessage → Nat → List ConversationMessage
  | [], truncated, _ => truncated
  | msg :: rest, truncated, tokenCount =>
    if maxMessages ≤ truncated.length ∨ maxTokens < tokenCount + estimateTokens msg.content then
      truncated
    else
      truncateLoop maxMessages maxTokens rest (msg :: truncated)
        (tokenCount + estimateTokens msg.content)

/-- CodexAgent.truncateHistory (CodexAgent.ts lines 217-253): a history within
both limits is returned unchanged (lines 223-228); otherwise the loop walks
from the most recent message backwards collecting a suffix. -/
def truncateHistory (maxMessages maxTokens : Nat) (history : List ConversationMessage) :
    List ConversationMessage :=
  if history.length ≤ maxMessages ∧ historyTokenSum history ≤ maxTokens then history
  else truncateLoop maxMessages maxTokens history.reverse [] 0

/-! ## Hook status output (worker-service.ts 125-139) -/

/-- Status argument of buildStatusOutput: 'ready' or 'error'. -/
inductive HookStatus
  | ready
  | error
deriving Repr, DecidableEq

/-- Result shape of buildStatusOutput. The TS field named continue is a Lean
keyword, so it is called continueField here. -/
structure StatusOutput where
  continueField : Bool
  suppressOutput : Bool
  status : HookStatus
  message : Option String
deriving Repr, DecidableEq

/-- buildStatusOutput (worker-service.ts lines 132-139): returns an object with
continue true, suppressOutput true, the given status, and the message spread
in only when it is truthy (present and non-empty). -/
def buildStatusOutput (status : HookStatus) (message : Option String) : StatusOutput :=
  { continueField := true
    suppressOutput := true
    status := status
    message :=
      match message with
      | some s => if s = "" then none else some s
      | none => none }

end OpenMem

namespace OpenMem

/-! ## Theorems -/

/-- C1: a consumer-task failure whose message matches one of the
fatal-configuration patterns (Claude executable not found, CLAUDE_CODE_PATH,
ENOENT, spawn) sets the unrecoverable flag, and the finally block then never
restarts the session processor, whatever the pending message count is (in
particular when it is positive); no fresh AbortController is allocated
either. -/
theorem fatal_config_error_suppresses_restart
    (errorMessage : String) (pendingCount : Nat)
    (h : isUnrecoverableGeneratorError errorMessage = true) :
    (processorFinally (some errorMessage) pendingCount).restarted = false ∧
    (processorFinally (some errorMessage) pendingCount).controllerReplaced = false := by
  simp [processorFinally, generatorHadUnrecoverableError, finallyBlock, h]

/-- Witness for C1: the concrete missing-executable message with five pending
messages is classified unrecoverable and suppresses the restart. -/
theorem fatal_config_error_suppresses_restart_witness :
    isUnrecoverableGeneratorError "Claude executable not found. Please either:" = true ∧
    (0 : Nat) < 5 ∧
    (processorFinally (some "Claude executable not found. Please either:") 5).restarted = false :=
  ⟨by decide, by decide,
    (fatal_config_error_suppresses_restart "Claude executable not found. Please either:" 5
      (by decide)).1⟩

/-- C10: buildStatusOutput always sets continue and suppressOutput to true and
copies the status; the message field is present exactly when the argument is a
present, non-empty string, and then carries that string unchanged. -/
theorem buildStatusOutput_spec (status : HookStatus) (message : Option String) :
    (buildStatusOutput status message).continueField = true ∧
    (buildStatusOutput status message).suppressOutput = true ∧
    (buildStatusOutput status message).status = status ∧
    (∀ s, message = some s → s ≠ "" → (buildStatusOutput status message).message = some s) ∧
    (message = none ∨ message = some "" → (buildStatusOutput status message).message = none) := by
  refine ⟨rfl, rfl, rfl, ?_, ?_⟩
  · intro s hs hne
    subst hs
    simp [buildStatusOutput, hne]
  · rintro (h | h) <;> subst h <;> simp [buildStatusOutput]

/-- Helper: counting and controller bookkeeping of restartChain when every
exit is non-fatal and leaves pending work. -/
theorem restartChain_spec (session : ActiveSession) (steps : List (Option String × Nat))
    (h : ∀ x ∈ steps, generatorHadUnrecoverableError x.1 = false ∧ 0 < x.2) :
    (restartChain session steps).1 = steps.length ∧
    (restartChain session steps).2.controllerGen = session.controllerGen + steps.length := by
  induction steps generalizing session with
  | nil => simp [restartChain]
  | cons x rest ih =>
    obtain ⟨o, p⟩ := x
    have hx : generatorHadUnrecoverableError o = false ∧ 0 < p := h (o, p) (by simp)
    have hrest : ∀ y ∈ rest, generatorHadUnrecoverableError y.1 = false ∧ 0 < y.2 :=
      fun y hy => h y (by simp [hy])
    have hstep : restartStep session o p = some { session with controllerGen := session.controllerGen + 1, controllerAborted := false } := by
      simp [restartStep, processorFinally, finallyBlock, hx.1, hx.2]
    have hih := ih { session with controllerGen := session.controllerGen + 1, controllerAborted := false } hrest
    refine ⟨?_, ?_⟩
    · simp [restartChain, hstep, hih.1]
    · simp only [restartChain, hstep]
      simp only [List.length_cons]
      have h2 := hih.2
      simp at h2 ⊢
      omega

/-- C4: a generator exit that is neither fatal nor cancelled (no unrecoverable
flag) while pendingCount is positive restarts the processor with a fresh
AbortController (the aborted one is also replaced by the entry guard, never
reused), and iterating such exits restarts every single time, allocating a
fresh controller generation at each restart: no processor-level retry counter
bounds the chain. -/
theorem processor_self_restart_unbounded (session : ActiveSession)
    (steps : List (Option String × Nat))
    (h : ∀ x ∈ steps, generatorHadUnrecoverableError x.1 = false ∧ 0 < x.2) :
    (∀ (outcome : Option String) (pendingCount : Nat),
      generatorHadUnrecoverableError outcome = false → 0 < pendingCount →
      (processorFinally outcome pendingCount).restarted = true ∧
      (processorFinally outcome pendingCount).controllerReplaced = true) ∧
    (∀ s : ActiveSession, (abortControllerGuard s).controllerAborted = false) ∧
    (restartChain session steps).1 = steps.length ∧
    (restartChain session steps).2.controllerGen = session.controllerGen + steps.length := by
  refine ⟨?_, ?_, (restartChain_spec session steps h).1, (restartChain_spec session steps h).2⟩
  · intro outcome pendingCount h1 h2
    constructor <;> simp [processorFinally, finallyBlock, h1, h2]
  · intro s
    by_cases hs : s.controllerAborted <;> simp [abortControllerGuard, hs]

/-- Witness for C4: three consecutive non-fatal exits with pending work give
three restarts and three fresh controller generations. -/
theorem processor_self_restart_unbounded_witness :
    (restartChain ⟨1, "c1", none, false, 0, true⟩
        [(none, 1), (some "transient network failure", 2), (none, 5)]).1 = 3 ∧
    (restartChain ⟨1, "c1", none, false, 0, true⟩
        [(none, 1), (some "transient network failure", 2), (none, 5)]).2.controllerGen = 0 + 3 :=
  ⟨(processor_self_restart_unbounded ⟨1, "c1", none, false, 0, true⟩
      [(none, 1), (some "transient network failure", 2), (none, 5)] (by decide)).2.2.1,
   (processor_self_restart_unbounded ⟨1, "c1", none, false, 0, true⟩
      [(none, 1), (some "transient network failure", 2), (none, 5)] (by decide)).2.2.2⟩

/-- C5 counterexample: a cooperative-cancellation error (AbortError, message
not matching any fatal or session-terminated pattern) is rethrown by the catch
handler, yet with one pending message the finally block does restart the
processor — refuting the claim that a cancelled termination never restarts
regardless of the pending count. -/
theorem cancelled_restart_suppression_counterexample :
    isAbortError ⟨"AbortError", "The operation was aborted"⟩ = true ∧
    catchHandler "The operation was aborted" = CatchOutcome.rethrow ∧
    (0 : Nat) < 1 ∧
    (processorFinally (some "The operation was aborted") 1).restarted = true := by
  decide

/-- C5 amended: a cooperative-cancellation failure is propagated upward (the
catch handler rethrows it), and the processor is not restarted when the
pending count is zero; but when pending work remains the finally block
restarts the processor with a fresh AbortController — cancelled terminations
are not exempt from the pending-work restart. -/
theorem cancelled_error_propagates_restart_only_on_pending
    (e : JsError) (pendingCount : Nat)
    (_habort : isAbortError e = true)
    (h1 : isUnrecoverableGeneratorError e.message = false)
    (h2 : isSessionTerminatedError e.message = false) :
    catchHandler e.message = CatchOutcome.rethrow ∧
    ((processorFinally (some e.message) pendingCount).restarted = true ↔ 0 < pendingCount) := by
  constructor
  · simp [catchHandler, h1, h2]
  · by_cases hp : 0 < pendingCount <;>
      simp [processorFinally, generatorHadUnrecoverableError, finallyBlock, h1, hp]

/-- Witness for C5 amended: a concrete AbortError with two pending messages is
rethrown and restarted. -/
theorem cancelled_error_propagates_witness :
    catchHandler "This operation was aborted" = CatchOutcome.rethrow ∧
    (processorFinally (some "This operation was aborted") 2).restarted = true :=
  ⟨(cancelled_error_propagates_restart_only_on_pending
      ⟨"AbortError", "This operation was aborted"⟩ 2 (by decide) (by decide) (by decide)).1,
   (cancelled_error_propagates_restart_only_on_pending
      ⟨"AbortError", "This operation was aborted"⟩ 2 (by decide) (by decide) (by decide)).2.mpr
      (by decide)⟩

/-- C3 counterexample: a session holding the memory-session id mem-abc hits a
generator failure with message No conversation found; the stale-resume branch
of the catch handler changes the id to null — refuting the claim that a
non-null memory-session identifier is never changed. -/
theorem memory_session_id_immutable_counterexample :
    (({ sessionDbId := 7, contentSessionId := "content-7", memorySessionId := some "mem-abc",
        forceInit := false, controllerGen := 0,
        controllerAborted := false } : ActiveSession)).memorySessionId = some "mem-abc" ∧
    (catchHandlerSession "No conversation found"
      { sessionDbId := 7, contentSessionId := "content-7", memorySessionId := some "mem-abc",
        forceInit := false, controllerGen := 0,
        controllerAborted := false }).memorySessionId = none := by
  decide

/-- C3 amended: a non-null memory-session identifier is never overwritten with
a different non-null value: the two mint operations leave it untouched, and
the only mutation the orchestrator performs is the stale-resume branch of the
catch handler clearing it back to null (setting forceInit) when the failure
message contains aborted by user or No conversation found and the error is
neither fatal-configuration nor session-terminated. -/
theorem memory_session_id_mutation_characterized
    (session : ActiveSession) (v : String) (nowMs : Nat) (msg : String)
    (hv : session.memorySessionId = some v) :
    (fallbackMintSession nowMs session).memorySessionId = some v ∧
    (codexMintSession nowMs session).memorySessionId = some v ∧
    ((catchHandlerSession msg session).memorySessionId = some v ∨
      ((catchHandlerSession msg session).memorySessionId = none ∧
       (catchHandlerSession msg session).forceInit = true ∧
       isStaleResumeFailure msg = true ∧
       isUnrecoverableGeneratorError msg = false ∧
       isSessionTerminatedError msg = false)) := by
  refine ⟨?_, ?_, ?_⟩
  · simp [fallbackMintSession, hv]
  · simp [codexMintSession, hv]
  · cases hu : isUnrecoverableGeneratorError msg with
    | true => left; simp [catchHandlerSession, hu, hv]
    | false =>
      cases ht : isSessionTerminatedError msg with
      | true => left; simp [catchHandlerSession, hu, ht, hv]
      | false =>
        cases hs : isStaleResumeFailure msg with
        | true =>
          right
          simp [catchHandlerSession, hu, ht, hs, hv]
        | false => left; simp [catchHandlerSession, hu, ht, hs, hv]

/-- Witness for C3 amended: a transient failure message leaves a non-null
memory-session id untouched through the fallback mint. -/
theorem memory_session_id_mutation_witness :
    (fallbackMintSession 42 ⟨3, "c3", some "m-1", false, 0, false⟩).memorySessionId =
      some "m-1" :=
  (memory_session_id_mutation_characterized ⟨3, "c3", some "m-1", false, 0, false⟩ "m-1" 42
    "transient network failure" rfl).1

/-- C2: a session-terminated (and non-fatal) failure diverts into the fallback
runner; OpenRouter is tried exactly when Gemini is unavailable or fails and
OpenRouter is available; and whenever no fallback agent succeeds (including
when none is available) the remaining messages are marked abandoned, the
session is removed from the registry, and an attempted OpenRouter call always
precedes the abandonment. -/
theorem fallback_priority_and_abandonment
    (env : FallbackEnv) (memorySessionId : Option String) :
    (∀ msg, isUnrecoverableGeneratorError msg = false → isSessionTerminatedError msg = true →
      catchHandler msg = CatchOutcome.runFallback) ∧
    ((env.geminiAvailable = false ∨ env.geminiSucceeds = false) →
      env.openRouterAvailable = true →
      FallbackEvent.tryOpenRouter ∈ runFallbackForTerminatedSession env memorySessionId) ∧
    (FallbackEvent.tryOpenRouter ∈ runFallbackForTerminatedSession env memorySessionId →
      (env.geminiAvailable = false ∨ env.geminiSucceeds = false)) ∧
    (fallbackSucceeded env = false →
      FallbackEvent.markAllAbandoned ∈ runFallbackForTerminatedSession env memorySessionId ∧
      FallbackEvent.removeSession ∈ runFallbackForTerminatedSession env memorySessionId) ∧
    (FallbackEvent.markAllAbandoned ∈ runFallbackForTerminatedSession env memorySessionId →
      fallbackSucceeded env = false) ∧
    (FallbackEvent.tryOpenRouter ∈ runFallbackForTerminatedSession env memorySessionId →
      FallbackEvent.markAllAbandoned ∈ runFallbackForTerminatedSession env memorySessionId →
      List.indexOf FallbackEvent.tryOpenRouter
          (runFallbackForTerminatedSession env memorySessionId) <
        List.indexOf FallbackEvent.markAllAbandoned
          (runFallbackForTerminatedSession env memorySessionId)) := by
  refine ⟨fun msg h1 h2 => by simp [catchHandler, h1, h2], ?_⟩
  have hsome : ∀ (e : FallbackEnv) (v : String),
      runFallbackForTerminatedSession e (some v) = runFallbackForTerminatedSession e (some "") :=
    fun e v => rfl
  obtain ⟨g, gs, o, os⟩ := env
  rcases memorySessionId with _ | v
  · cases g <;> cases gs <;> cases o <;> cases os <;> decide
  · rw [hsome]
    cases g <;> cases gs <;> cases o <;> cases os <;> decide

/-- Witness for C2: with Gemini unavailable and OpenRouter available but
failing, OpenRouter is tried and the session is then abandoned and removed. -/
theorem fallback_priority_witness :
    FallbackEvent.tryOpenRouter ∈
      runFallbackForTerminatedSession ⟨false, false, true, false⟩ none ∧
    FallbackEvent.markAllAbandoned ∈
      runFallbackForTerminatedSession ⟨false, false, true, false⟩ none ∧
    FallbackEvent.removeSession ∈
      runFallbackForTerminatedSession ⟨false, false, true, false⟩ none :=
  ⟨(fallback_priority_and_abandonment ⟨false, false, true, false⟩ none).2.1
      (Or.inl rfl) rfl,
   ((fallback_priority_and_abandonment ⟨false, false, true, false⟩ none).2.2.2.1 rfl).1,
   ((fallback_priority_and_abandonment ⟨false, false, true, false⟩ none).2.2.2.1 rfl).2⟩

/-- C6: in the background-initialization sequence the stale-processing reset
with threshold 0 precedes processPendingQueues(50) (the only startup path that
starts session processors) and precedes the initialization-complete flag that
ungates the processor-starting /api routes; and the reset with threshold 0
moves every processing message back to pending, so no message is left in
processing when a processor first claims work. -/
theorem reset_precedes_processor_starts :
    List.indexOf (InitStep.resetStaleProcessing 0) initializeBackgroundSteps <
      List.indexOf (InitStep.processPendingQueues 50) initializeBackgroundSteps ∧
    List.indexOf (InitStep.resetStaleProcessing 0) initializeBackgroundSteps <
      List.indexOf InitStep.markInitializationComplete initializeBackgroundSteps ∧
    InitStep.resetStaleProcessing 0 ∈ initializeBackgroundSteps ∧
    (∀ (now : Int) (msgs : List PendingMessage),
      (∀ m ∈ msgs, m.status = MsgStatus.processing →
        { m with status := MsgStatus.pending } ∈ resetStaleProcessingMessages 0 now msgs) ∧
      (∀ m ∈ resetStaleProcessingMessages 0 now msgs, m.status ≠ MsgStatus.processing)) := by
  refine ⟨by decide, by decide, by decide, fun now msgs => ⟨?_, ?_⟩⟩
  · intro m hm hproc
    have hf : (if m.status = MsgStatus.processing ∧
          ((0 : Int) = 0 ∨ m.started_at_epoch.getD (now - 0 - 1) < now - 0)
        then { m with status := MsgStatus.pending } else m) =
        { m with status := MsgStatus.pending } := by
      simp [hproc]
    unfold resetStaleProcessingMessages
    rw [← hf]
    exact List.mem_map_of_mem
      (fun m => if m.status = MsgStatus.processing ∧
          ((0 : Int) = 0 ∨ m.started_at_epoch.getD (now - 0 - 1) < now - 0)
        then { m with status := MsgStatus.pending } else m) hm
  · intro m hm
    simp only [resetStaleProcessingMessages] at hm
    obtain ⟨a, _, rfl⟩ := List.mem_map.1 hm
    by_cases hst : a.status = MsgStatus.processing <;> simp [hst]

/-- Witness for C6: a concrete processing message is reset to pending by the
threshold-0 reset. -/
theorem reset_precedes_processor_starts_witness :
    ({ id := 1, session_db_id := 2, status := MsgStatus.pending, started_at_epoch := some 5,
        failed_at_epoch := none } : PendingMessage) ∈
      resetStaleProcessingMessages 0 9999
        [{ id := 1, session_db_id := 2, status := MsgStatus.processing,
           started_at_epoch := some 5, failed_at_epoch := none }] :=
  (reset_precedes_processor_starts.2.2.2 9999
      [{ id := 1, session_db_id := 2, status := MsgStatus.processing, started_at_epoch := some 5,
         failed_at_epoch := none }]).1
    { id := 1, session_db_id := 2, status := MsgStatus.processing, started_at_epoch := some 5,
      failed_at_epoch := none } (by decide) (by decide)

/-- C7: in the recovery pass of processPendingQueues, every active session
whose start time is older than the 6-hour staleness threshold is transitioned
to failed (with completed_at_epoch set), and every still-pending message of
such a session is transitioned to failed with failed_at_epoch set — not
reclaimed to pending. -/
theorem stale_sessions_and_messages_failed
    (now : Int) (sessions : List SdkSessionRow) (msgs : List PendingMessage)
    (s : SdkSessionRow) (m : PendingMessage)
    (hs : s ∈ sessions) (hact : s.status = SessionStatus.active)
    (hold : s.started_at_epoch < now - STALE_SESSION_THRESHOLD_MS) :
    { s with status := SessionStatus.failed, completed_at_epoch := some now } ∈
      (cleanupStaleSessions now sessions msgs).1 ∧
    (m ∈ msgs → m.status = MsgStatus.pending → m.session_db_id = s.id →
      { m with status := MsgStatus.failed, failed_at_epoch := some now } ∈
        (cleanupStaleSessions now sessions msgs).2) := by
  have hmem : s ∈ sessions.filter (fun r =>
      decide (r.status = SessionStatus.active ∧
        r.started_at_epoch < now - STALE_SESSION_THRESHOLD_MS)) := by
    rw [List.mem_filter]
    exact ⟨hs, by simp [hact, hold]⟩
  have hid : s.id ∈ staleSessionIds now sessions := by
    simp only [staleSessionIds]
    exact List.mem_map_of_mem _ hmem
  constructor
  · simp only [cleanupStaleSessions, failStaleSessions]
    have hf : (if s.id ∈ staleSessionIds now sessions
        then { s with status := SessionStatus.failed, completed_at_epoch := some now }
        else s) =
        { s with status := SessionStatus.failed, completed_at_epoch := some now } := by
      simp [hid]
    rw [← hf]
    exact List.mem_map_of_mem _ hs
  · intro hm hpend hsid
    simp only [cleanupStaleSessions, failStaleSessionMessages]
    have hf : (if m.status = MsgStatus.pending ∧ m.session_db_id ∈ staleSessionIds now sessions
        then { m with status := MsgStatus.failed, failed_at_epoch := some now }
        else m) =
        { m with status := MsgStatus.failed, failed_at_epoch := some now } := by
      simp [hpend, hsid, hid]
    rw [← hf]
    exact List.mem_map_of_mem _ hm

/-- Witness for C7: a session started at epoch 0, seen at epoch 21600001 (one
millisecond past six hours), is failed together with its pending message. -/
theorem stale_sessions_and_messages_failed_witness :
    ({ id := 1, status := SessionStatus.failed, started_at_epoch := 0,
        completed_at_epoch := some 21600001 } : SdkSessionRow) ∈
      (cleanupStaleSessions 21600001
        [{ id := 1, status := SessionStatus.active, started_at_epoch := 0,
           completed_at_epoch := none }]
        [{ id := 10, session_db_id := 1, status := MsgStatus.pending, started_at_epoch := none,
           failed_at_epoch := none }]).1 ∧
    ({ id := 10, session_db_id := 1, status := MsgStatus.failed, started_at_epoch := none,
        failed_at_epoch := some 21600001 } : PendingMessage) ∈
      (cleanupStaleSessions 21600001
        [{ id := 1, status := SessionStatus.active, started_at_epoch := 0,
           completed_at_epoch := none }]
        [{ id := 10, session_db_id := 1, status := MsgStatus.pending, started_at_epoch := none,
           failed_at_epoch := none }]).2 :=
  ⟨(stale_sessions_and_messages_failed 21600001
      [{ id := 1, status := SessionStatus.active, started_at_epoch := 0,
         completed_at_epoch := none }]
      [{ id := 10, session_db_id := 1, status := MsgStatus.pending, started_at_epoch := none,
         failed_at_epoch := none }]
      { id := 1, status := SessionStatus.active, started_at_epoch := 0,
        completed_at_epoch := none }
      { id := 10, session_db_id := 1, status := MsgStatus.pending, started_at_epoch := none,
        failed_at_epoch := none }
      (by decide) rfl (by decide)).1,
   (stale_sessions_and_messages_failed 21600001
      [{ id := 1, status := SessionStatus.active, started_at_epoch := 0,
         completed_at_epoch := none }]
      [{ id := 10, session_db_id := 1, status := MsgStatus.pending, started_at_epoch := none,
         failed_at_epoch := none }]
      { id := 1, status := SessionStatus.active, started_at_epoch := 0,
        completed_at_epoch := none }
      { id := 10, session_db_id := 1, status := MsgStatus.pending, started_at_epoch := none,
        failed_at_epoch := none }
      (by decide) rfl (by decide)).2 (by decide) rfl rfl⟩

/-- C8: when CodexAgent.startSession runs for a session lacking a
memory-session identifier, the very first two actions are minting the
synthetic identifier and persisting it to the store, and every
record-inserting processAgentResponse call occurs strictly later in the
trace. -/
theorem codex_mints_memory_id_before_inserts
    (contentSessionId : String) (nowMs : Nat) (initResponse : String)
    (msgs : List QueuedMessage) :
    (codexStartSessionEvents none contentSessionId nowMs initResponse msgs).get? 0 =
      some (AgentEvent.mintMemorySessionId
        (codexSyntheticMemorySessionId contentSessionId nowMs)) ∧
    (codexStartSessionEvents none contentSessionId nowMs initResponse msgs).get? 1 =
      some (AgentEvent.persistMemorySessionId
        (codexSyntheticMemorySessionId contentSessionId nowMs)) ∧
    (∀ i, (codexStartSessionEvents none contentSessionId nowMs initResponse msgs).get? i =
      some AgentEvent.processResponse → 1 < i) := by
  refine ⟨rfl, rfl, ?_⟩
  intro i h
  rcases i with _ | _ | n
  · simp [codexStartSessionEvents] at h
  · simp [codexStartSessionEvents] at h
  · omega

/-- Witness for C8: with one init response and no queued messages the insert
happens at index 3, after the mint at 0 and the persist at 1. -/
theorem codex_mints_memory_id_witness :
    (codexStartSessionEvents none "content-9" 5 "resp" []).get? 0 =
      some (AgentEvent.mintMemorySessionId (codexSyntheticMemorySessionId "content-9" 5)) ∧
    1 < 3 :=
  ⟨(codex_mints_memory_id_before_inserts "content-9" 5 "resp" []).1,
   (codex_mints_memory_id_before_inserts "content-9" 5 "resp" []).2.2 3 (by decide)⟩

/-- Helper: foldl of the token estimator starting from n equals n plus the
foldl starting from 0. -/
theorem foldl_tokens_shift :
    ∀ (l : List ConversationMessage) (n : Nat),
      l.foldl (fun sum m => sum + estimateTokens m.content) n =
        n + l.foldl (fun sum m => sum + estimateTokens m.content) 0
  | [], n => by simp
  | a :: t, n => by
    simp only [List.foldl_cons]
    rw [foldl_tokens_shift t (n + estimateTokens a.content),
      foldl_tokens_shift t (0 + estimateTokens a.content)]
    omega

/-- Helper: token sum of a cons. -/
theorem historyTokenSum_cons (a : ConversationMessage) (t : List ConversationMessage) :
    historyTokenSum (a :: t) = estimateTokens a.content + historyTokenSum t := by
  simp only [historyTokenSum, List.foldl_cons]
  rw [foldl_tokens_shift]
  omega

/-- Helper: the truncation loop returns a suffix of the processed messages
followed by the accumulator. -/
theorem truncateLoop_suffix (N T : Nat) :
    ∀ (rev acc : List ConversationMessage) (tc : Nat),
      List.IsSuffix (truncateLoop N T rev acc tc) (rev.reverse ++ acc)
  | [], acc, _ => by
    rw [truncateLoop]
    simp
  | msg :: rest, acc, tc => by
    rw [truncateLoop]
    split
    · exact List.suffix_append _ acc
    · have ih := truncateLoop_suffix N T rest (msg :: acc) (tc + estimateTokens msg.content)
      have heq : (msg :: rest).reverse ++ acc = rest.reverse ++ (msg :: acc) := by
        simp [List.reverse_cons, List.append_assoc]
      rw [heq]
      exact ih

/-- Helper: the truncation loop never keeps more than N messages. -/
theorem truncateLoop_length (N T : Nat) :
    ∀ (rev acc : List ConversationMessage) (tc : Nat), acc.length ≤ N →
      (truncateLoop N T rev acc tc).length ≤ N
  | [], acc, tc, h => by
    rw [truncateLoop]
    exact h
  | msg :: rest, acc, tc, h => by
    rw [truncateLoop]
    split
    · exact h
    · rename_i hcond
      push_neg at hcond
      exact truncateLoop_length N T rest (msg :: acc) _ (by simp; omega)

/-- Helper: the truncation loop never exceeds T estimated tokens. -/
theorem truncateLoop_tokens (N T : Nat) :
    ∀ (rev acc : List ConversationMessage) (tc : Nat),
      historyTokenSum acc = tc → tc ≤ T →
      historyTokenSum (truncateLoop N T rev acc tc) ≤ T
  | [], acc, tc, heq, hle => by
    rw [truncateLoop]
    exact heq ▸ hle
  | msg :: rest, acc, tc, heq, hle => by
    rw [truncateLoop]
    split
    · exact heq ▸ hle
    · rename_i hcond
      push_neg at hcond
      refine truncateLoop_tokens N T rest (msg :: acc) _ ?_ hcond.2
      rw [historyTokenSum_cons, heq]
      omega

/-- Helper: the four structural properties of truncateHistory for arbitrary
limits. -/
theorem truncateHistory_props (N T : Nat) (history : List ConversationMessage) :
    List.IsSuffix (truncateHistory N T history) history ∧
    (truncateHistory N T history).length ≤ N ∧
    historyTokenSum (truncateHistory N T history) ≤ T ∧
    (history.length ≤ N → historyTokenSum history ≤ T → truncateHistory N T history = history) := by
  unfold truncateHistory
  by_cases hc : history.length ≤ N ∧ historyTokenSum history ≤ T
  · rw [if_pos hc]
    exact ⟨List.suffix_refl _, hc.1, hc.2, fun _ _ => rfl⟩
  · rw [if_neg hc]
    refine ⟨?_, ?_, ?_, ?_⟩
    · have h := truncateLoop_suffix N T history.reverse [] 0
      simpa using h
    · exact truncateLoop_length N T history.reverse [] 0 (by simp)
    · exact truncateLoop_tokens N T history.reverse [] 0 (by simp [historyTokenSum])
        (Nat.zero_le T)
    · intro h1 h2
      exact absurd ⟨h1, h2⟩ hc

/-- C9: with the limits resolved from settings (N messages, T tokens;
defaults 20 and 100000 when the setting is absent or unparsable), the
truncated history is a contiguous suffix of the input (most recent messages,
oldest evicted first) of at most N messages whose estimated token sum — each
message estimated at ceil(length / 4) — is at most T, and a history already
within both limits is returned unchanged. -/
theorem truncateHistory_spec (parsedMaxMessages parsedMaxTokens : Option Nat)
    (history : List ConversationMessage) :
    List.IsSuffix
      (truncateHistory (resolveLimitSetting parsedMaxMessages DEFAULT_MAX_CONTEXT_MESSAGES)
        (resolveLimitSetting parsedMaxTokens DEFAULT_MAX_ESTIMATED_TOKENS) history) history ∧
    (truncateHistory (resolveLimitSetting parsedMaxMessages DEFAULT_MAX_CONTEXT_MESSAGES)
        (resolveLimitSetting parsedMaxTokens DEFAULT_MAX_ESTIMATED_TOKENS) history).length ≤
      resolveLimitSetting parsedMaxMessages DEFAULT_MAX_CONTEXT_MESSAGES ∧
    historyTokenSum
        (truncateHistory (resolveLimitSetting parsedMaxMessages DEFAULT_MAX_CONTEXT_MESSAGES)
          (resolveLimitSetting parsedMaxTokens DEFAULT_MAX_ESTIMATED_TOKENS) history) ≤
      resolveLimitSetting parsedMaxTokens DEFAULT_MAX_ESTIMATED_TOKENS ∧
    (history.length ≤ resolveLimitSetting parsedMaxMessages DEFAULT_MAX_CONTEXT_MESSAGES →
      historyTokenSum history ≤ resolveLimitSetting parsedMaxTokens DEFAULT_MAX_ESTIMATED_TOKENS →
      truncateHistory (resolveLimitSetting parsedMaxMessages DEFAULT_MAX_CONTEXT_MESSAGES)
        (resolveLimitSetting parsedMaxTokens DEFAULT_MAX_ESTIMATED_TOKENS) history = history) ∧
    resolveLimitSetting none DEFAULT_MAX_CONTEXT_MESSAGES = 20 ∧
    resolveLimitSetting none DEFAULT_MAX_ESTIMATED_TOKENS = 100000 := by
  have h := truncateHistory_props
    (resolveLimitSetting parsedMaxMessages DEFAULT_MAX_CONTEXT_MESSAGES)
    (resolveLimitSetting parsedMaxTokens DEFAULT_MAX_ESTIMATED_TOKENS) history
  exact ⟨h.1, h.2.1, h.2.2.1, h.2.2.2, rfl, rfl⟩

/-- Witness for C9: a one-message history within the default limits is
returned unchanged. -/
theorem truncateHistory_spec_witness :
    truncateHistory (resolveLimitSetting none DEFAULT_MAX_CONTEXT_MESSAGES)
        (resolveLimitSetting none DEFAULT_MAX_ESTIMATED_TOKENS)
        [{ role := "user", content := "hi" }] = [{ role := "user", content := "hi" }] ∧
    (truncateHistory (resolveLimitSetting none DEFAULT_MAX_CONTEXT_MESSAGES)
        (resolveLimitSetting none DEFAULT_MAX_ESTIMATED_TOKENS)
        [{ role := "user", content := "hi" }]).length ≤
      resolveLimitSetting none DEFAULT_MAX_CONTEXT_MESSAGES :=
  ⟨(truncateHistory_spec none none [{ role := "user", content := "hi" }]).2.2.2.1 (by decide)
      (by decide),
   (truncateHistory_spec none none [{ role := "user", content := "hi" }]).2.1⟩

/-- Witness for C10: a ready status with a non-empty message keeps the message,
and an error status with an empty-string message omits it. -/
theorem buildStatusOutput_spec_witness :
    (buildStatusOutput HookStatus.ready (some "worker up")).message = some "worker up" ∧
    (buildStatusOutput HookStatus.error (some "")).message = none :=
  ⟨(buildStatusOutput_spec HookStatus.ready (some "worker up")).2.2.2.1 "worker up" rfl
      (by decide),
    (buildStatusOutput_spec HookStatus.error (some "")).2.2.2.2 (Or.inr rfl)⟩

end OpenMem
